import Mathlib

/-!
Verification of the envelope/transport layer of `brazil-fiscal-client`
(`brazil_fiscal_client/fiscal_client.py` and `brazil_fiscal_client/soap_client.py`).

Strings are embedded as Lean `String` values (lists of characters).
Python `str.replace(old, new)` (which replaces every occurrence of `old`)
is embedded as the fuel-based `replaceFuel`; Python `str.split(sep)` with a
one-character separator is embedded as `splitChar`; Python `sep.join(parts)`
is embedded as `joinWith`.
-/

/-- Embedding of the substring test `pat` is a prefix of `s`. -/
def isPrefixL : List Char → List Char → Bool
  | [], _ => true
  | _ :: _, [] => false
  | a :: as, b :: bs => a == b && isPrefixL as bs

/-- Embedding of the Python substring test `pat in s`. -/
def containsL (pat : List Char) : List Char → Bool
  | [] => isPrefixL pat []
  | c :: rest => isPrefixL pat (c :: rest) || containsL pat rest

/-- Embedding of Python `s.replace(pat, repl)`: replaces every occurrence of
`pat` in `s` by `repl`, scanning left to right.  The fuel argument (taken as
`s.length` by `replaceAllL`) makes the recursion structural. -/
def replaceFuel (pat repl : List Char) : Nat → List Char → List Char
  | 0, s => s
  | _ + 1, [] => []
  | fuel + 1, c :: rest =>
    if isPrefixL pat (c :: rest) then
      repl ++ replaceFuel pat repl fuel (List.drop pat.length (c :: rest))
    else
      c :: replaceFuel pat repl fuel rest

/-- Python `s.replace(pat, repl)` on character lists. -/
def replaceAllL (pat repl s : List Char) : List Char :=
  replaceFuel pat repl s.length s

/-- Python `pat in s` on `String`. -/
def strContains (s pat : String) : Bool := containsL pat.data s.data

/-- Python `s.replace(pat, repl)` on `String`. -/
def strReplaceAll (s pat repl : String) : String :=
  String.mk (replaceAllL pat.data repl.data s.data)

/-- Embedding of Python `s.split(sep)` for a one-character separator:
always returns a non-empty list of (possibly empty) segments. -/
def splitChar (c : Char) : List Char → List (List Char)
  | [] => [[]]
  | a :: rest =>
    let r := splitChar c rest
    if a == c then [] :: r
    else (a :: r.headD []) :: r.tail

/-- Embedding of Python `sep.join(parts)`. -/
def joinWith (sep : String) : List String → String
  | [] => ""
  | [x] => x
  | x :: y :: xs => x ++ sep ++ joinWith sep (y :: xs)

/-- Python `s[-2:]` on a list: the last two elements (fewer when shorter). -/
def lastTwo {α : Type} (l : List α) : List α := l.drop (l.length - 2)

/-! ## Model of `brazil_fiscal_client/fiscal_client.py` -/

namespace fiscal_client

/-- Module constant `RETRIES = 3` (fiscal_client.py line 19). -/
def RETRIES : Nat := 3

/-- Module constant `BACKOFF_FACTOR = 0.1` (line 20), embedded as the rational 1/10. -/
def BACKOFF_FACTOR : ℚ := 1 / 10

/-- Module constant `RETRY_ERRORS = (500, 502, 503, 504)` (line 21). -/
def RETRY_ERRORS : List Nat := [500, 502, 503, 504]

/-- Module constant `TIMEOUT = 20.0` (line 22), embedded as a rational. -/
def TIMEOUT : ℚ := 20

/-- The member values of the `Tamb` enum (lines 25-29). -/
def Tamb_values : List String := ["1", "2"]

/-- The member values of the `TcodUfIbge` enum (lines 32-62): the 27 valid IBGE codes. -/
def TcodUfIbge_values : List String :=
  ["11", "12", "13", "14", "15", "16", "17", "21", "22", "23", "24", "25", "26",
   "27", "28", "29", "31", "32", "33", "35", "41", "42", "43", "50", "51", "52", "53"]

/-- The two kinds of adapter the constructor mounts on the `requests` session:
the retry-policy `HTTPAdapter` (line 145) and the `Pkcs12Adapter` (lines 148-154). -/
inductive Adapter : Type where
  | httpRetry (total : Nat) (backoff_factor : ℚ) (status_forcelist : List Nat)
  | pkcs12Adapter (pkcs12_data : String) (pkcs12_password : String)
deriving DecidableEq

/-- `requests.Session.mount(prefix, adapter)`: the session's adapter table is keyed
by the URL prefix, so mounting on an already-registered prefix replaces that entry. -/
def mountAdapter (adapters : List (String × Adapter)) (p : String) (a : Adapter) :
    List (String × Adapter) :=
  if adapters.any (fun e => e.1 == p) then
    adapters.map (fun e => if e.1 == p then (p, a) else e)
  else
    (p, a) :: adapters

/-- Adapter registered for a given prefix in the session's adapter table. -/
def findAdapter (adapters : List (String × Adapter)) (p : String) : Option Adapter :=
  (adapters.find? (fun e => e.1 == p)).map Prod.snd

/-- The attributes of a `FiscalClient` instance after `__init__` (lines 103-155),
together with the state the constructor leaves on the shared transport/session. -/
structure FiscalClientState : Type where
  ambiente : String
  uf : String
  pkcs12_data : String
  pkcs12_password : String
  fake_certificate : Bool
  verify_ssl : Bool
  service : String
  versao : String
  server : String
  transport_timeout : ℚ
  session_adapters : List (String × Adapter)
  session_verify : Bool
deriving DecidableEq

/-- `FiscalClient._get_server` (lines 157-160). -/
def get_server (service uf : String) : String := "not implemented here"

/-- `FiscalClient.__init__` (lines 103-155).  The body only assigns the passed
values to attributes, resolves the server, sets the transport timeout and mounts
the adapters; it performs no validation of `ambiente` or `uf` and has no failure
path, so the embedding is a total function.  `session_verify` starts at the
`requests` default `true` and is only overwritten when a real certificate is used
(line 155 sits inside the `if not self.fake_certificate` branch). -/
def FiscalClient_init (ambiente uf pkcs12_data pkcs12_password : String)
    (fake_certificate : Bool) (server : Option String)
    (service versao : String) (verify_ssl : Bool) : FiscalClientState :=
  let srv : String :=
    match server with
    | some s => s
    | none => get_server service uf
  let afterRetry :=
    mountAdapter [] srv (Adapter.httpRetry RETRIES BACKOFF_FACTOR RETRY_ERRORS)
  let adapters :=
    if fake_certificate then afterRetry
    else mountAdapter afterRetry srv (Adapter.pkcs12Adapter pkcs12_data pkcs12_password)
  { ambiente := ambiente
    uf := uf
    pkcs12_data := pkcs12_data
    pkcs12_password := pkcs12_password
    fake_certificate := fake_certificate
    verify_ssl := verify_ssl
    service := service
    versao := versao
    server := srv
    transport_timeout := TIMEOUT
    session_adapters := adapters
    session_verify := if fake_certificate then true else verify_ssl }

/-- `action_name = location.split("/")[-1].split(".")[0]` (line 263):
Python `split` never returns an empty list, so the `getLastD`/`headD`
defaults are never used. -/
def action_name_of (location : String) : String :=
  String.mk (((splitChar '.' ((splitChar '/' location.data).getLastD []))).headD [])

/-- The action-name formula in the words of the spec: the final '/'-separated
path segment of the URL with its file extension stripped, that is, the text
before the first '.' of that segment. -/
def spec_action_name (u : String) : String :=
  String.mk (((splitChar '/' u.data).getLastD []).takeWhile (fun a => !(a == '.')))

/-- The hand-built generic SOAP envelope (lines 264-278), an exact rendering of
the Python f-string with `service`, the action-derived namespace and the rendered
payload `content` spliced in. -/
def genericEnvelope (service content location : String) : String :=
  let ns : String :=
    "http://www.portalfiscal.inf.br/" ++ service ++ "/" ++ service ++ "/"
      ++ action_name_of location
  "\n            <soapenv:Envelope\n                xmlns=\"http://www.portalfiscal.inf.br/"
    ++ service
    ++ "\"\n                xmlns:soapenv=\"http://schemas.xmlsoap.org/soap/envelope/\"\n            >\n                <soapenv:Body>\n                    <ns2:"
    ++ service
    ++ "DadosMsg\n                        xmlns:ns2=\""
    ++ ns
    ++ "\"\n                    >\n                        "
    ++ content
    ++ "\n                    </ns2:"
    ++ service
    ++ "DadosMsg>\n                </soapenv:Body>\n            </soapenv:Envelope>\n            "

/-- The placeholder-substitution tail of `_prepare_fiscal_payload` (lines 280-293),
applied to the already-rendered payload `data`.  The regular-expression search of
the source is embedded as a literal-substring search (the placeholder patterns
used are literal markers such as `<NFe/>`); `matches[0]` is then the pattern text
itself, and `data.replace(matches[0], placeholder_content)` replaces every
occurrence of it, after which all newline and carriage-return characters are
stripped. -/
def prepare_payload_placeholder (data placeholder_exp placeholder_content : String) :
    String :=
  if placeholder_exp ≠ "" ∧ placeholder_content ≠ "" then
    if strContains data placeholder_exp then
      strReplaceAll (strReplaceAll (strReplaceAll data placeholder_exp placeholder_content)
        "\n" "") "\r" ""
    else data
  else data

/-- The two kinds of `action` accepted by `FiscalClient.send` (lines 197-216):
an action class generated from a WSDL file, carrying its declared `location`
URL, or a plain URL/path string. -/
inductive SendAction : Type where
  | actionClass (location : String)
  | url (s : String)

/-- The target URL `send` posts to (lines 197-216): for an action class,
`self.server + "/".join(["/ws"] + action_class.location.split("/")[-2:])`;
for a string, the string itself when it starts with `"http"`, otherwise
`self.server + action`. -/
def sendLocation (server : String) (action : SendAction) : String :=
  match action with
  | SendAction.actionClass loc =>
      server ++ joinWith "/" ("/ws" :: (lastTwo (splitChar '/' loc.data)).map String.mk)
  | SendAction.url s => if s.startsWith "http" then s else server ++ s

/-! Model of `_xsdata_response` (lines 307-325).  The xsdata parser and
serializer are external collaborators; they are embedded at the granularity the
resolver uses them.  The fixture scenario (and the repository's tests) have the
response bindings imported, so `content[0]` of the parsed wildcard is a typed
dataclass value: assigning `qname`/`text` on it only sets inert extra attributes,
and re-rendering derives the element tag from the class metadata. -/

/-- A flat child element of the wildcard result value (tag and text content). -/
structure ChildElement : Type where
  tag : String
  text : String
deriving DecidableEq

/-- `content[0]` of the parsed `<service>ResultMsg`: the typed wildcard value,
plus the `qname`/`text` marker attributes the resolver assigns (lines 317-318). -/
structure WildcardElement : Type where
  tag : String
  attributes : List (String × String)
  children : List ChildElement
  qname : Option String
  text : Option String
deriving DecidableEq

/-- The parsed `<service>ResultMsg` field: a wildcard content list. -/
structure ResultMsg : Type where
  content : List WildcardElement
deriving DecidableEq

/-- The parsed response body; `resultMsg` is the `<service>ResultMsg` field,
`none` when the element is absent from the response. -/
structure SoapBody : Type where
  resultMsg : Option ResultMsg
deriving DecidableEq

/-- The response parsed against `self.config.output` (line 313). -/
structure ParsedResponse : Type where
  body : SoapBody
deriving DecidableEq

/-- The standalone XML fragment produced by re-rendering the wildcard element
under a default (unprefixed) namespace (lines 319-322). -/
structure XmlFragment : Type where
  ns : String
  tag : String
  attributes : List (String × String)
  children : List ChildElement
deriving DecidableEq

/-- `self.serializer.render(obj=anyElement, ns_map={None: ...})` (lines 319-322):
the typed value renders under the given default namespace with its class-derived
tag; the inert `qname`/`text` markers do not contribute. -/
def renderAnyElement (ns : String) (w : WildcardElement) : XmlFragment :=
  { ns := ns, tag := w.tag, attributes := w.attributes, children := w.children }

/-- The typed result the fixture scenario parses the fragment into
(`RetConsStatServ` of nfelib, fields as in the fixture response). -/
structure RetConsStatServ : Type where
  versao : Option String
  tpAmb : Option String
  verAplic : Option String
  cStat : Option String
  xMotivo : Option String
  cUF : Option String
  dhRecbto : Option String
  tMed : Option String
deriving DecidableEq

/-- How `_xsdata_response` can fail: `nameError` is the unbound local variable
`xml` hit on line 325, `indexError` is `result_msg.content[0]` on an empty list
(line 316), `emptyResult` is the `EmptyResultError` the specification calls for
(it does not occur in the code), and `parseFailure` is a schema mismatch in the
final re-parse. -/
inductive FiscalResponseError : Type where
  | nameError (v : String)
  | indexError (idx : Nat)
  | emptyResult
  | parseFailure
deriving DecidableEq

/-- Text of the first child with the given tag, as the re-parse reads it. -/
def childText (children : List ChildElement) (tag : String) : Option String :=
  (children.find? (fun c => c.tag == tag)).map ChildElement.text

/-- Value of an XML attribute of the fragment root. -/
def attrText (attributes : List (String × String)) (name : String) : Option String :=
  (attributes.find? (fun a => a.1 == name)).map Prod.snd

/-- `self.parser.from_string(xml, return_type)` (line 323) at the fixture's
return type `RetConsStatServ`: accepts a `retConsStatServ` root element in the
nfe fiscal namespace and binds the fields from attributes and child elements. -/
def parseRetConsStatServ (x : XmlFragment) : Except FiscalResponseError RetConsStatServ :=
  if x.tag == "retConsStatServ" && x.ns == "http://www.portalfiscal.inf.br/nfe" then
    Except.ok
      { versao := attrText x.attributes "versao"
        tpAmb := childText x.children "tpAmb"
        verAplic := childText x.children "verAplic"
        cStat := childText x.children "cStat"
        xMotivo := childText x.children "xMotivo"
        cUF := childText x.children "cUF"
        dhRecbto := childText x.children "dhRecbto"
        tMed := childText x.children "tMed" }
  else Except.error FiscalResponseError.parseFailure

/-- `FiscalClient._xsdata_response` (lines 307-325) after the response has been
parsed against `self.config.output`.  When the `<service>ResultMsg` field is
truthy, `content[0]` is taken (an `IndexError` when the content list is empty,
since a dataclass instance is truthy even with empty content), its `qname` and
`text` markers are cleared, the element is re-rendered under the fiscal default
namespace and re-parsed against the caller-supplied return type.  When the field
is falsy (`None`), control falls through to line 325, which reads the local
variable `xml` that was never assigned: a `NameError`. -/
def xsdata_response (service : String) (resp : ParsedResponse) :
    Except FiscalResponseError RetConsStatServ :=
  match resp.body.resultMsg with
  | some rm =>
    match rm.content with
    | [] => Except.error (FiscalResponseError.indexError 0)
    | w :: _ =>
      let w2 : WildcardElement := { w with qname := none, text := none }
      let xml := renderAnyElement ("http://www.portalfiscal.inf.br/" ++ service) w2
      parseRetConsStatServ xml
  | none => Except.error (FiscalResponseError.nameError "xml")

/-- The wildcard element carried by the fixture response of the test suite:
`<retConsStatServ versao="4.00">` with `<cStat>107</cStat>` among its children
(tests/test_fiscal_client.py lines 16-34; the parsed qname is cleared by the
resolver before rendering, so only the class-derived tag matters). -/
def fixtureContent0 : WildcardElement :=
  { tag := "retConsStatServ"
    attributes := [("versao", "4.00")]
    children :=
      [⟨"tpAmb", "2"⟩, ⟨"verAplic", "SVRS202401251654"⟩, ⟨"cStat", "107"⟩,
       ⟨"xMotivo", "Servico SVC em Operacao"⟩, ⟨"cUF", "42"⟩,
       ⟨"dhRecbto", "2024-03-31T00:19:52-03:00"⟩, ⟨"tMed", "1"⟩]
    qname := some "retConsStatServ"
    text := some "" }

/-- The fixture response parsed against the output type: the body's
`nfeResultMsg` holds the single wildcard element above. -/
def fixtureResponse : ParsedResponse :=
  { body := { resultMsg := some { content := [fixtureContent0] } } }

end fiscal_client

/-! ## Model of `brazil_fiscal_client/soap_client.py` (module constants) -/

namespace soap_client

/-- Module constant `RETRIES = 3` (soap_client.py line 20). -/
def RETRIES : Nat := 3

/-- Module constant `BACKOFF_FACTOR = 0.1` (line 21), embedded as 1/10. -/
def BACKOFF_FACTOR : ℚ := 1 / 10

/-- Module constant `RETRY_ERRORS = (500, 502, 503, 504)` (line 22). -/
def RETRY_ERRORS : List Nat := [500, 502, 503, 504]

/-- Module constant `TIMEOUT = 5.0` (line 23): `SoapClient.send` sets
`self.transport.timeout = TIMEOUT` (line 169), that is, five seconds. -/
def TIMEOUT : ℚ := 5

end soap_client

/-! ## SOAP dialect handling

The `soap12_envelope` and `raise_on_soap_mismatch` options are exercised by the
repository's test suite (tests/test_fiscal_client.py) but their implementation
is not part of the sources under `src/`; the definitions below are modelled from
the specification. -/

namespace fiscal_client

/-- The SOAP 1.1 envelope namespace. -/
def SOAP11_ENV_NS : String := "http://schemas.xmlsoap.org/soap/envelope/"

/-- The SOAP 1.2 envelope namespace. -/
def SOAP12_ENV_NS : String := "http://www.w3.org/2003/05/soap-envelope"

/-- Modelled from the spec: the request-side `soapDialect = SOAP12` step of
`EnvelopeBuilder.prepare` is missing from `src/`.  "If `soapDialect = SOAP12`,
rewrite the envelope's namespace declaration from the SOAP 1.1 envelope
namespace to the SOAP 1.2 one (`http://www.w3.org/2003/05/soap-envelope`) — a
pure string substitution, not a semantic re-render".  Under the default
configuration the rendered envelope is passed through unchanged. -/
def applySoap12 (soap12_envelope : Bool) (data : String) : String :=
  if soap12_envelope then strReplaceAll data SOAP11_ENV_NS SOAP12_ENV_NS else data

/-- Modelled from the spec: the response-side dialect reconciliation of
`ResponseResolver.resolve` is missing from `src/`.  "If the client was
explicitly configured for SOAP 1.2, OR the response contains the SOAP 1.2
namespace and does not contain the SOAP 1.1 namespace while
`raiseOnDialectMismatch=false`, then rewrite every occurrence of the SOAP 1.2
envelope namespace in the response text to the SOAP 1.1 one before parsing.  If
`raiseOnDialectMismatch=true` and the response's dialect does not match what
parsing expects, fail with a ParseError naming the unexpected namespace — no
silent repair."  The error value carries the unexpected namespace. -/
def reconcileSoapDialect (soap12_envelope raise_on_soap_mismatch : Bool)
    (response : String) : Except String String :=
  if soap12_envelope
      || (strContains response SOAP12_ENV_NS && !strContains response SOAP11_ENV_NS
            && !raise_on_soap_mismatch) then
    Except.ok (strReplaceAll response SOAP12_ENV_NS SOAP11_ENV_NS)
  else if raise_on_soap_mismatch && strContains response SOAP12_ENV_NS
      && !strContains response SOAP11_ENV_NS then
    Except.error SOAP12_ENV_NS
  else
    Except.ok response

end fiscal_client

/-! ## General lemmas about the string machinery -/

theorem strExt {s t : String} (h : s.data = t.data) : s = t := by
  cases s; cases t; cases h; rfl

theorem data_ne_nil_of_ne_empty {s : String} (h : s ≠ "") : s.data ≠ [] := by
  intro hd
  exact h (strExt (by simpa using hd))

theorem isPrefixL_append_self (p t : List Char) : isPrefixL p (p ++ t) = true := by
  induction p with
  | nil => rfl
  | cons a as ih => simp [isPrefixL, ih]

theorem exists_of_isPrefixL {p s : List Char} (h : isPrefixL p s = true) :
    ∃ t, s = p ++ t := by
  induction p generalizing s with
  | nil => exact ⟨s, rfl⟩
  | cons a as ih =>
    cases s with
    | nil => simp [isPrefixL] at h
    | cons b bs =>
      simp only [isPrefixL, Bool.and_eq_true, beq_iff_eq] at h
      obtain ⟨t, ht⟩ := ih h.2
      exact ⟨t, by simp [h.1, ht]⟩

theorem length_le_of_isPrefixL {p s : List Char} (h : isPrefixL p s = true) :
    p.length ≤ s.length := by
  obtain ⟨t, rfl⟩ := exists_of_isPrefixL h
  simp

theorem containsL_of_isPrefixL {p s : List Char} (h : isPrefixL p s = true) :
    containsL p s = true := by
  cases s with
  | nil => simpa [containsL] using h
  | cons c rest => simp [containsL, h]

theorem containsL_cons_of {p rest : List Char} (c : Char) (h : containsL p rest = true) :
    containsL p (c :: rest) = true := by
  simp [containsL, h]

theorem containsL_append_self (p x y : List Char) :
    containsL p (x ++ p ++ y) = true := by
  induction x with
  | nil => simpa using containsL_of_isPrefixL (isPrefixL_append_self p y)
  | cons c cs ih => simpa using containsL_cons_of c (by simpa using ih)

theorem exists_of_containsL {p s : List Char} (h : containsL p s = true) :
    ∃ x y, s = x ++ p ++ y := by
  induction s with
  | nil =>
    cases p with
    | nil => exact ⟨[], [], rfl⟩
    | cons a as => simp [containsL, isPrefixL] at h
  | cons c rest ih =>
    simp only [containsL, Bool.or_eq_true] at h
    rcases h with h | h
    · obtain ⟨t, ht⟩ := exists_of_isPrefixL h
      exact ⟨[], t, by simp [ht]⟩
    · obtain ⟨x, y, hxy⟩ := ih h
      exact ⟨c :: x, y, by simp [hxy]⟩

theorem containsL_iff {p s : List Char} :
    containsL p s = true ↔ ∃ x y, s = x ++ p ++ y :=
  ⟨exists_of_containsL, fun ⟨x, y, h⟩ => h ▸ containsL_append_self p x y⟩

theorem isPrefixL_append_cases {p x b : List Char} (h : isPrefixL p (x ++ b) = true) :
    (p.length ≤ x.length ∧ isPrefixL p x = true) ∨
      (isPrefixL x p = true ∧ isPrefixL (List.drop x.length p) b = true) := by
  induction x generalizing p with
  | nil => exact Or.inr ⟨rfl, by simpa using h⟩
  | cons a as ih =>
    cases p with
    | nil => exact Or.inl ⟨by simp, rfl⟩
    | cons q qs =>
      simp only [List.cons_append, isPrefixL, Bool.and_eq_true, beq_iff_eq] at h
      obtain ⟨hqa, hrest⟩ := h
      rcases ih hrest with ⟨hlen, hpre⟩ | ⟨hpre, hdrop⟩
      · exact Or.inl ⟨by simpa using Nat.succ_le_succ hlen,
          by simp [isPrefixL, hqa, hpre]⟩
      · exact Or.inr ⟨by simp [isPrefixL, hqa, hpre], by simpa using hdrop⟩

theorem containsL_append_split {p a b : List Char} (h : containsL p (a ++ b) = true) :
    containsL p b = true ∨
      ∃ k, k < a.length ∧ isPrefixL p (List.drop k a ++ b) = true := by
  induction a with
  | nil => exact Or.inl (by simpa using h)
  | cons c cs ih =>
    simp only [List.cons_append, containsL, Bool.or_eq_true] at h
    rcases h with h | h
    · exact Or.inr ⟨0, by simp, by simpa using h⟩
    · rcases ih h with h | ⟨k, hk, hp⟩
      · exact Or.inl h
      · exact Or.inr ⟨k + 1, by simpa using Nat.succ_lt_succ hk, by simpa using hp⟩

theorem containsL_of_isPrefixL_drop {p s : List Char} {k : Nat}
    (h : isPrefixL p (List.drop k s) = true) : containsL p s = true := by
  obtain ⟨t, ht⟩ := exists_of_isPrefixL h
  refine containsL_iff.mpr ⟨List.take k s, t, ?_⟩
  conv_lhs => rw [← List.take_append_drop k s]
  rw [ht]
  simp

theorem replaceFuel_of_not_containsL {p repl s : List Char}
    (h : containsL p s = false) : ∀ fuel, replaceFuel p repl fuel s = s := by
  intro fuel
  induction fuel generalizing s with
  | zero => rfl
  | succ fuel ih =>
    cases s with
    | nil => rfl
    | cons c rest =>
      simp only [containsL, Bool.or_eq_false_iff] at h
      simp [replaceFuel, h.1, ih h.2]

theorem containsL_repl_replaceFuel {p repl : List Char} (hp : p ≠ []) :
    ∀ fuel s, s.length ≤ fuel → containsL p s = true →
      containsL repl (replaceFuel p repl fuel s) = true := by
  intro fuel
  induction fuel with
  | zero =>
    intro s hlen hc
    have : s = [] := List.length_eq_zero.mp (Nat.le_zero.mp hlen)
    subst this
    cases p with
    | nil => exact absurd rfl hp
    | cons a as => simp [containsL, isPrefixL] at hc
  | succ fuel ih =>
    intro s hlen hc
    cases s with
    | nil =>
      cases p with
      | nil => exact absurd rfl hp
      | cons a as => simp [containsL, isPrefixL] at hc
    | cons c rest =>
      by_cases hpre : isPrefixL p (c :: rest) = true
      · rw [replaceFuel, if_pos hpre]
        simpa using containsL_append_self repl [] (replaceFuel p repl fuel
          (List.drop p.length (c :: rest)))
      · rw [replaceFuel, if_neg hpre]
        simp only [containsL, Bool.or_eq_true] at hc
        rcases hc with hc | hc
        · exact absurd hc hpre
        · exact containsL_cons_of c (ih rest (Nat.le_of_succ_le_succ hlen) hc)

/-- The scanning step of `replaceFuel` never runs out of fuel when the fuel is at
least the length of the scanned list: after a match at the head of `s`, the
remaining list is strictly shorter. -/
theorem drop_length_le {p s : List Char} (hp : p ≠ []) {fuel : Nat}
    (hlen : s.length ≤ fuel + 1) : (List.drop p.length s).length ≤ fuel := by
  cases p with
  | nil => exact absurd rfl hp
  | cons a as => simp [List.length_drop]; omega

/-- Main removal lemma: when the replacement cannot recreate the pattern (the
pattern does not occur in the replacement, no proper suffix of the replacement
starts the pattern, and no nonempty proper suffix of the pattern overlaps the
replacement in either direction), the result of replace-all contains no
occurrence of the pattern; moreover any nonempty proper suffix of the pattern
that prefixes the result already prefixed the input. -/
theorem replaceFuel_removes {p repl : List Char} (hp : p ≠ [])
    (ha : containsL p repl = false)
    (hb : ∀ k, k < repl.length → isPrefixL (List.drop k repl) p = false)
    (hd1 : ∀ j, j < p.length → 0 < j → isPrefixL (List.drop j p) repl = false)
    (hd2 : ∀ j, j < p.length → 0 < j → isPrefixL repl (List.drop j p) = false) :
    ∀ fuel s, s.length ≤ fuel →
      containsL p (replaceFuel p repl fuel s) = false ∧
      (∀ j, j < p.length → 0 < j →
        isPrefixL (List.drop j p) (replaceFuel p repl fuel s) = true →
        isPrefixL (List.drop j p) s = true) := by
  intro fuel
  induction fuel with
  | zero =>
    intro s hlen
    have hs : s = [] := List.length_eq_zero.mp (Nat.le_zero.mp hlen)
    subst hs
    constructor
    · cases p with
      | nil => exact absurd rfl hp
      | cons a as => simp [replaceFuel, containsL, isPrefixL]
    · intro j _ _ hpre
      exact hpre
  | succ fuel ih =>
    intro s hlen
    cases s with
    | nil =>
      constructor
      · cases p with
        | nil => exact absurd rfl hp
        | cons a as => simp [replaceFuel, containsL, isPrefixL]
      · intro j _ _ hpre
        exact hpre
    | cons c rest =>
      by_cases hpre : isPrefixL p (c :: rest) = true
      · -- a match at the head: the result is repl ++ (rewritten tail)
        have hrec := ih (List.drop p.length (c :: rest)) (drop_length_le hp hlen)
        rw [replaceFuel, if_pos hpre]
        constructor
        · -- no occurrence of p in repl ++ R
          by_contra hcon
          rw [Bool.not_eq_false] at hcon
          rcases containsL_append_split hcon with hcr | ⟨k, hk, hkp⟩
          · exact absurd hcr (by simp [hrec.1])
          · rcases isPrefixL_append_cases hkp with ⟨_, hfit⟩ | ⟨hrev, _⟩
            · exact absurd (containsL_of_isPrefixL_drop hfit) (by simp [ha])
            · exact absurd hrev (by simp [hb k hk])
        · -- no nonempty proper suffix of p prefixes repl ++ R
          intro j hjlen hj hjpre
          rcases isPrefixL_append_cases hjpre with ⟨_, hfit⟩ | ⟨hrev, _⟩
          · exact absurd hfit (by simp [hd1 j hjlen hj])
          · exact absurd hrev (by simp [hd2 j hjlen hj])
      · -- no match at the head: the head character is kept
        have hrec := ih rest (Nat.le_of_succ_le_succ hlen)
        rw [replaceFuel, if_neg hpre]
        constructor
        · -- p does not prefix c :: R and does not occur in R
          have hR : containsL p (replaceFuel p repl fuel rest) = false := hrec.1
          have hhead : isPrefixL p (c :: replaceFuel p repl fuel rest) = false := by
            cases p with
            | nil => exact absurd rfl hp
            | cons q qs =>
              by_contra hcon
              rw [Bool.not_eq_false] at hcon
              simp only [isPrefixL, Bool.and_eq_true, beq_iff_eq] at hcon
              obtain ⟨hqc, hqs⟩ := hcon
              cases hqs0 : qs with
              | nil =>
                -- p = [q] and q = c: p prefixes the original c :: rest
                apply hpre
                subst hqs0
                simp [isPrefixL, hqc]
              | cons z zs =>
                -- qs = drop 1 p is a nonempty proper suffix of p
                have h1lt : 1 < (q :: qs).length := by simp [hqs0]
                have := hrec.2 1 h1lt (by omega) (by simpa [hqs0] using hqs)
                apply hpre
                simp only [isPrefixL, Bool.and_eq_true, beq_iff_eq]
                exact ⟨hqc, by simpa [hqs0] using this⟩
          simp [containsL, hhead, hR]
        · -- suffix transfer through a kept character
          intro j hjlen hj hjpre
          have hdropj : List.drop j p = p[j] :: List.drop (j + 1) p :=
            List.drop_eq_getElem_cons hjlen
          rw [hdropj] at hjpre
          simp only [isPrefixL, Bool.and_eq_true, beq_iff_eq] at hjpre
          obtain ⟨hjc, hjrest⟩ := hjpre
          rw [hdropj]
          simp only [isPrefixL, Bool.and_eq_true, beq_iff_eq]
          refine ⟨hjc, ?_⟩
          by_cases hjsucc : j + 1 < p.length
          · exact hrec.2 (j + 1) hjsucc (by omega) hjrest
          · have : List.drop (j + 1) p = [] :=
              List.drop_eq_nil_iff.mpr (by omega)
            rw [this]
            rfl

/-- Replacing a one-character pattern by the empty string is exactly filtering
that character out (Python `s.replace("\n", "")`). -/
theorem replaceFuel_singleton_nil {ch : Char} :
    ∀ fuel s, s.length ≤ fuel →
      replaceFuel [ch] [] fuel s = s.filter (fun a => !(a == ch)) := by
  intro fuel
  induction fuel with
  | zero =>
    intro s hlen
    have hs : s = [] := List.length_eq_zero.mp (Nat.le_zero.mp hlen)
    subst hs
    rfl
  | succ fuel ih =>
    intro s hlen
    cases s with
    | nil => rfl
    | cons c rest =>
      by_cases hc : ch = c
      · subst hc
        have hpre : isPrefixL [ch] (ch :: rest) = true := by simp [isPrefixL]
        rw [replaceFuel, if_pos hpre]
        simpa using ih rest (Nat.le_of_succ_le_succ hlen)
      · have hpre : isPrefixL [ch] (c :: rest) = false := by
          simp [isPrefixL]
          exact hc
        rw [replaceFuel, if_neg (by simp [hpre])]
        have hne : (c == ch) = false := by
          simp
          exact fun h => hc h.symm
        simp [List.filter, hne, ih rest (Nat.le_of_succ_le_succ hlen)]

/-- A pattern free of the filtered character survives the filtering. -/
theorem containsL_filter {q s : List Char} {ch : Char}
    (hq : ∀ a ∈ q, (a == ch) = false)
    (h : containsL q s = true) :
    containsL q (s.filter (fun a => !(a == ch))) = true := by
  obtain ⟨x, y, rfl⟩ := exists_of_containsL h
  have hfq : q.filter (fun a => !(a == ch)) = q :=
    List.filter_eq_self.mpr (fun a ha => by simp [hq a ha])
  rw [List.filter_append, List.filter_append, hfq]
  exact containsL_append_self q _ _

/-! String-level corollaries, phrased on the embedded Python operations. -/

theorem strReplaceAll_not_contains {s pat repl : String} (hp : pat ≠ "")
    (ha : strContains repl pat = false)
    (hb : ∀ k, k < repl.data.length → isPrefixL (List.drop k repl.data) pat.data = false)
    (hd1 : ∀ j, j < pat.data.length → 0 < j →
      isPrefixL (List.drop j pat.data) repl.data = false)
    (hd2 : ∀ j, j < pat.data.length → 0 < j →
      isPrefixL repl.data (List.drop j pat.data) = false) :
    strContains (strReplaceAll s pat repl) pat = false := by
  have := (replaceFuel_removes (data_ne_nil_of_ne_empty hp) ha hb hd1 hd2
    s.data.length s.data (Nat.le_refl _)).1
  simpa [strContains, strReplaceAll, replaceAllL] using this

theorem strReplaceAll_contains_repl {s pat repl : String} (hp : pat ≠ "")
    (h : strContains s pat = true) :
    strContains (strReplaceAll s pat repl) repl = true := by
  have := @containsL_repl_replaceFuel pat.data repl.data
    (data_ne_nil_of_ne_empty hp) s.data.length s.data (Nat.le_refl _) h
  simpa [strContains, strReplaceAll, replaceAllL] using this

theorem strReplaceAll_of_not_contains {s pat repl : String}
    (h : strContains s pat = false) : strReplaceAll s pat repl = s := by
  apply strExt
  simpa [strReplaceAll, replaceAllL] using
    @replaceFuel_of_not_containsL pat.data repl.data s.data h s.data.length

/-- Stripping a character, at the `String` level, is a filter on the data. -/
theorem strReplaceAll_char_nil (s : String) (ch : Char) :
    strReplaceAll s (String.mk [ch]) "" =
      String.mk (s.data.filter (fun a => !(a == ch))) := by
  apply strExt
  simpa [strReplaceAll, replaceAllL] using
    replaceFuel_singleton_nil s.data.length s.data (Nat.le_refl _)

/-! ## Claims -/

/-- C2: the claim states that an `environment` or `stateCode` outside the valid
sets makes construction fail with a ConfigurationError before any network
activity.  `FiscalClient.__init__` (fiscal_client.py lines 103-155) performs no
validation whatsoever — it only assigns the attributes — so at the invalid
inputs `ambiente = "3"` and `uf = "99"` construction succeeds and stores the
invalid values unchanged; the repository's own test
(`test_invalid_ambiente`, tests/test_fiscal_client.py lines 151-160)
expects a `ValueError` here and is contradicted by the code. -/
theorem C2_no_construction_validation :
    ("3" ∈ fiscal_client.Tamb_values → False)
    ∧ (fiscal_client.FiscalClient_init "3" "42" "fake_cert" "123456" true none "nfe"
        "4.00" false).ambiente = "3"
    ∧ ("99" ∈ fiscal_client.TcodUfIbge_values → False)
    ∧ (fiscal_client.FiscalClient_init "1" "99" "fake_cert" "123456" true none "nfe"
        "4.00" false).uf = "99" :=
  ⟨by decide, rfl, by decide, rfl⟩

/-- C6: the claim states that an absent `<service>ResultMsg` or an empty
wildcard content list makes resolution fail with EmptyResultError.  In the code
(fiscal_client.py lines 313-325) an absent/falsy `result_msg` falls through to
line 325, which reads the never-assigned local variable `xml` (a `NameError`),
and an empty `content` list hits `result_msg.content[0]` (an `IndexError`);
neither is the specified EmptyResultError. -/
theorem C6_no_empty_result_error :
    fiscal_client.xsdata_response "nfe" { body := { resultMsg := none } } =
      Except.error (fiscal_client.FiscalResponseError.nameError "xml")
    ∧ fiscal_client.xsdata_response "nfe" { body := { resultMsg := some { content := [] } } } =
      Except.error (fiscal_client.FiscalResponseError.indexError 0)
    ∧ (Except.error (fiscal_client.FiscalResponseError.nameError "xml") :
        Except fiscal_client.FiscalResponseError fiscal_client.RetConsStatServ) ≠
      Except.error fiscal_client.FiscalResponseError.emptyResult
    ∧ (Except.error (fiscal_client.FiscalResponseError.indexError 0) :
        Except fiscal_client.FiscalResponseError fiscal_client.RetConsStatServ) ≠
      Except.error fiscal_client.FiscalResponseError.emptyResult :=
  ⟨rfl, rfl, by simp, by simp⟩

/-- C8 counterexample: the claim states that the transport is configured with a
default request timeout of 20 seconds, citing the constants of both modules;
`soap_client.py` line 23 sets `TIMEOUT = 5.0`, which `SoapClient.send` assigns
to the transport, so the claim fails for that client. -/
theorem C8_counterexample : soap_client.TIMEOUT ≠ 20 ∧ soap_client.TIMEOUT = 5 :=
  ⟨by norm_num [soap_client.TIMEOUT], rfl⟩

/-- C8 amended: both modules configure the retry policy as 3 attempts, backoff
factor 0.1, retrying exactly the statuses {500, 502, 503, 504};
`FiscalClient`'s transport timeout is 20 seconds while the legacy `SoapClient`
sets 5 seconds. -/
theorem C8_transport_configuration :
    fiscal_client.RETRIES = 3 ∧ fiscal_client.BACKOFF_FACTOR = 1 / 10
    ∧ fiscal_client.RETRY_ERRORS = [500, 502, 503, 504]
    ∧ fiscal_client.TIMEOUT = 20
    ∧ (fiscal_client.FiscalClient_init "2" "42" "d" "p" true (some "https://srv") "nfe"
        "4.00" false).transport_timeout = 20
    ∧ (fiscal_client.FiscalClient_init "2" "42" "d" "p" true (some "https://srv") "nfe"
        "4.00" false).session_adapters =
      [("https://srv", fiscal_client.Adapter.httpRetry 3 (1 / 10) [500, 502, 503, 504])]
    ∧ soap_client.RETRIES = 3 ∧ soap_client.BACKOFF_FACTOR = 1 / 10
    ∧ soap_client.RETRY_ERRORS = [500, 502, 503, 504]
    ∧ soap_client.TIMEOUT = 5 :=
  ⟨rfl, rfl, rfl, rfl, rfl, rfl, rfl, rfl, rfl, rfl⟩

/-- C9: mounting is keyed by URL prefix, and `__init__` mounts the retry
adapter and then, unless `fake_certificate`, the `Pkcs12Adapter` on the same
prefix `self.server` (fiscal_client.py lines 145-154): with a real certificate
the second mount replaces the first, so the adapter registered for the server
prefix is the PKCS#12 adapter; with `fake_certificate = true` the retry adapter
remains registered. -/
theorem C9_adapter_mount_replacement (ambiente uf d pw service versao srv : String)
    (vssl : Bool) :
    fiscal_client.findAdapter
      (fiscal_client.FiscalClient_init ambiente uf d pw false (some srv) service versao
        vssl).session_adapters srv = some (fiscal_client.Adapter.pkcs12Adapter d pw)
    ∧ fiscal_client.findAdapter
      (fiscal_client.FiscalClient_init ambiente uf d pw true (some srv) service versao
        vssl).session_adapters srv =
      some (fiscal_client.Adapter.httpRetry fiscal_client.RETRIES
        fiscal_client.BACKOFF_FACTOR fiscal_client.RETRY_ERRORS) := by
  constructor <;>
    simp [fiscal_client.FiscalClient_init, fiscal_client.mountAdapter,
      fiscal_client.findAdapter]

/-- A string built as `pre ++ pat ++ suf` contains `pat`. -/
theorem strContains_of_split (pre pat suf : String) {s : String}
    (h : s = pre ++ pat ++ suf) : strContains s pat = true := by
  subst h
  simpa [strContains, String.data_append] using
    containsL_append_self pat.data pre.data suf.data

/-- The head of a one-character split is the longest prefix free of the
separator: Python `s.split(sep)[0]` is the text before the first `sep`. -/
theorem splitChar_headD_takeWhile (c : Char) (s : List Char) :
    (splitChar c s).headD [] = s.takeWhile (fun a => !(a == c)) := by
  induction s with
  | nil => rfl
  | cons a rest ih =>
    by_cases hac : (a == c) = true
    · simp [splitChar, hac, List.takeWhile]
    · simp only [Bool.not_eq_true] at hac
      simp [splitChar, hac, List.takeWhile]
      simpa using ih

/-- C7: in generic mode the rendered payload fragment is wrapped by hand in a
SOAP envelope; the synthetic `{service}DadosMsg` element carries the
action-derived namespace
`http://www.portalfiscal.inf.br/{service}/{service}/{actionName}`, where
`actionName` is the final '/'-separated segment of the target URL with its file
extension stripped (the text before the first '.', as the spec words it), and
the payload sits under the unprefixed default namespace
`http://www.portalfiscal.inf.br/{service}` (fiscal_client.py lines 257-278). -/
theorem C7_generic_envelope (service content location : String) :
    strContains (fiscal_client.genericEnvelope service content location)
      ("xmlns:ns2=\"http://www.portalfiscal.inf.br/" ++ service ++ "/" ++ service ++ "/"
        ++ fiscal_client.action_name_of location ++ "\"") = true
    ∧ strContains (fiscal_client.genericEnvelope service content location)
      ("xmlns=\"http://www.portalfiscal.inf.br/" ++ service ++ "\"") = true
    ∧ strContains (fiscal_client.genericEnvelope service content location) content = true
    ∧ strContains (fiscal_client.genericEnvelope service content location)
      ("<ns2:" ++ service ++ "DadosMsg") = true
    ∧ fiscal_client.action_name_of location = fiscal_client.spec_action_name location := by
  refine ⟨?_, ?_, ?_, ?_, ?_⟩
  · refine strContains_of_split
      ("\n            <soapenv:Envelope\n                xmlns=\"http://www.portalfiscal.inf.br/"
        ++ service
        ++ "\"\n                xmlns:soapenv=\"http://schemas.xmlsoap.org/soap/envelope/\"\n            >\n                <soapenv:Body>\n                    <ns2:"
        ++ service ++ "DadosMsg\n                        ")
      _
      ("\n                    >\n                        " ++ content
        ++ "\n                    </ns2:" ++ service
        ++ "DadosMsg>\n                </soapenv:Body>\n            </soapenv:Envelope>\n            ")
      ?_
    simp only [fiscal_client.genericEnvelope, String.append_assoc]
    try rfl
  · refine strContains_of_split
      ("\n            <soapenv:Envelope\n                ")
      _
      ("\n                xmlns:soapenv=\"http://schemas.xmlsoap.org/soap/envelope/\"\n            >\n                <soapenv:Body>\n                    <ns2:"
        ++ service ++ "DadosMsg\n                        xmlns:ns2=\""
        ++ ("http://www.portalfiscal.inf.br/" ++ service ++ "/" ++ service ++ "/"
            ++ fiscal_client.action_name_of location)
        ++ "\"\n                    >\n                        " ++ content
        ++ "\n                    </ns2:" ++ service
        ++ "DadosMsg>\n                </soapenv:Body>\n            </soapenv:Envelope>\n            ")
      ?_
    simp only [fiscal_client.genericEnvelope, String.append_assoc]
    try rfl
  · refine strContains_of_split
      ("\n            <soapenv:Envelope\n                xmlns=\"http://www.portalfiscal.inf.br/"
        ++ service
        ++ "\"\n                xmlns:soapenv=\"http://schemas.xmlsoap.org/soap/envelope/\"\n            >\n                <soapenv:Body>\n                    <ns2:"
        ++ service ++ "DadosMsg\n                        xmlns:ns2=\""
        ++ ("http://www.portalfiscal.inf.br/" ++ service ++ "/" ++ service ++ "/"
            ++ fiscal_client.action_name_of location)
        ++ "\"\n                    >\n                        ")
      _
      ("\n                    </ns2:" ++ service
        ++ "DadosMsg>\n                </soapenv:Body>\n            </soapenv:Envelope>\n            ")
      ?_
    simp only [fiscal_client.genericEnvelope, String.append_assoc]
    try rfl
  · refine strContains_of_split
      ("\n            <soapenv:Envelope\n                xmlns=\"http://www.portalfiscal.inf.br/"
        ++ service
        ++ "\"\n                xmlns:soapenv=\"http://schemas.xmlsoap.org/soap/envelope/\"\n            >\n                <soapenv:Body>\n                    ")
      _
      ("\n                        xmlns:ns2=\""
        ++ ("http://www.portalfiscal.inf.br/" ++ service ++ "/" ++ service ++ "/"
            ++ fiscal_client.action_name_of location)
        ++ "\"\n                    >\n                        " ++ content
        ++ "\n                    </ns2:" ++ service
        ++ "DadosMsg>\n                </soapenv:Body>\n            </soapenv:Envelope>\n            ")
      ?_
    simp only [fiscal_client.genericEnvelope, String.append_assoc]
    try rfl
  · unfold fiscal_client.action_name_of fiscal_client.spec_action_name
    rw [splitChar_headD_takeWhile]

/-- C10: for a schema-bound action class, the POST target is `self.server`
followed by `/ws/` and the last two path segments of the class's WSDL-declared
location — the declared scheme and host (and any earlier segments) never reach
the target; for a string action, the target is the string itself when it starts
with `http`, otherwise `self.server + action` (fiscal_client.py lines 197-216). -/
theorem C10_send_target_url (server loc : String) (pre : List (List Char))
    (a b : List Char) (h : splitChar '/' loc.data = pre ++ [a, b]) :
    fiscal_client.sendLocation server (fiscal_client.SendAction.actionClass loc) =
      server ++ "/ws/" ++ String.mk a ++ "/" ++ String.mk b
    ∧ ∀ s, fiscal_client.sendLocation server (fiscal_client.SendAction.url s) =
        if s.startsWith "http" then s else server ++ s := by
  constructor
  · have hdrop : lastTwo (splitChar '/' loc.data) = [a, b] := by
      rw [h, lastTwo]
      simp only [List.length_append, List.length_cons, List.length_nil,
        Nat.add_sub_cancel]
      simpa using List.drop_left pre [a, b]
    simp only [fiscal_client.sendLocation, hdrop, List.map_cons, List.map_nil]
    have hjoin : joinWith "/" ["/ws", String.mk a, String.mk b] =
        "/ws" ++ "/" ++ (String.mk a ++ "/" ++ String.mk b) := by
      simp [joinWith, String.append_assoc]
    rw [hjoin]
    apply strExt
    simp [String.data_append, List.append_assoc]
  · intro s
    rfl

/-- C1: for every schema-bound response whose parsed body has a non-empty
`<service>ResultMsg` content list, `_xsdata_response` takes `content[0]`, sets
its `qname` and `text` markers to `None`, re-renders just that element as a
standalone fragment under the default namespace
`http://www.portalfiscal.inf.br/{service}` and re-parses the fragment against
the caller-supplied return type; for the fixture response containing
`<cStat>107</cStat>` the resulting value's status-code field is `"107"`
(fiscal_client.py lines 307-325). -/
theorem C1_wildcard_resolution (service : String) (resp : fiscal_client.ParsedResponse)
    (rm : fiscal_client.ResultMsg) (w : fiscal_client.WildcardElement)
    (rest : List fiscal_client.WildcardElement)
    (h1 : resp.body.resultMsg = some rm) (h2 : rm.content = w :: rest) :
    fiscal_client.xsdata_response service resp =
      fiscal_client.parseRetConsStatServ
        (fiscal_client.renderAnyElement ("http://www.portalfiscal.inf.br/" ++ service)
          { w with qname := none, text := none })
    ∧ ∃ r, fiscal_client.xsdata_response "nfe" fiscal_client.fixtureResponse =
        Except.ok r ∧ r.cStat = some "107" := by
  constructor
  · simp [fiscal_client.xsdata_response, h1, h2]
  · exact ⟨_, rfl, rfl⟩

/-- Witness for C1 at the fixture response of the test suite. -/
theorem C1_wildcard_resolution_witness :
    fiscal_client.fixtureResponse.body.resultMsg =
      some { content := [fiscal_client.fixtureContent0] }
    ∧ ({ content := [fiscal_client.fixtureContent0] } : fiscal_client.ResultMsg).content =
      fiscal_client.fixtureContent0 :: []
    ∧ (fiscal_client.xsdata_response "nfe" fiscal_client.fixtureResponse =
        fiscal_client.parseRetConsStatServ
          (fiscal_client.renderAnyElement ("http://www.portalfiscal.inf.br/" ++ "nfe")
            { fiscal_client.fixtureContent0 with qname := none, text := none })
      ∧ ∃ r, fiscal_client.xsdata_response "nfe" fiscal_client.fixtureResponse =
          Except.ok r ∧ r.cStat = some "107") :=
  ⟨rfl, rfl,
    C1_wildcard_resolution "nfe" fiscal_client.fixtureResponse
      { content := [fiscal_client.fixtureContent0] } fiscal_client.fixtureContent0 []
      rfl rfl⟩

/-- Witness for C10 at the WSDL location used by the repository's tests. -/
theorem C10_send_target_url_witness :
    splitChar '/'
      ("https://nfe-homologacao.svrs.rs.gov.br/ws/NfeStatusServico/NfeStatusServico4.asmx" : String).data =
      ["https:".data, "".data, "nfe-homologacao.svrs.rs.gov.br".data, "ws".data] ++
        ["NfeStatusServico".data, "NfeStatusServico4.asmx".data]
    ∧ fiscal_client.sendLocation "https://srv.example"
        (fiscal_client.SendAction.actionClass
          "https://nfe-homologacao.svrs.rs.gov.br/ws/NfeStatusServico/NfeStatusServico4.asmx") =
      "https://srv.example" ++ "/ws/" ++ String.mk "NfeStatusServico".data ++ "/"
        ++ String.mk "NfeStatusServico4.asmx".data
    ∧ fiscal_client.sendLocation "https://srv.example"
        (fiscal_client.SendAction.url "/ws/x") =
      if ("/ws/x" : String).startsWith "http" then "/ws/x" else "https://srv.example" ++ "/ws/x" :=
  ⟨by decide,
    (C10_send_target_url "https://srv.example"
      "https://nfe-homologacao.svrs.rs.gov.br/ws/NfeStatusServico/NfeStatusServico4.asmx"
      ["https:".data, "".data, "nfe-homologacao.svrs.rs.gov.br".data, "ws".data]
      "NfeStatusServico".data "NfeStatusServico4.asmx".data (by decide)).1,
    (C10_send_target_url "https://srv.example"
      "https://nfe-homologacao.svrs.rs.gov.br/ws/NfeStatusServico/NfeStatusServico4.asmx"
      ["https:".data, "".data, "nfe-homologacao.svrs.rs.gov.br".data, "ws".data]
      "NfeStatusServico".data "NfeStatusServico4.asmx".data (by decide)).2 "/ws/x"⟩

/-- Stripping newlines, as `data.replace("\n", "")` does, filters them out. -/
theorem strip_lf (s : String) :
    strReplaceAll s "\n" "" = String.mk (s.data.filter (fun a => !(a == '\n'))) :=
  strReplaceAll_char_nil s '\n'

/-- Stripping carriage returns, as `data.replace("\r", "")` does. -/
theorem strip_cr (s : String) :
    strReplaceAll s "\r" "" = String.mk (s.data.filter (fun a => !(a == '\r'))) :=
  strReplaceAll_char_nil s '\r'

/-- C3 counterexample: the claim promises that after a successful placeholder
substitution the output "no longer contains the first matched substring" and
that "only the first matching substring is replaced".  At
`data = "x\nyxy"`, `pattern = "xy"`, `replacement = "Z"` the code produces
`"xyZ"`, which still contains the matched substring `"xy"` (newline stripping
recreated it); and at `data = "ab<NFe/>cd<NFe/>"`, `pattern = "<NFe/>"`,
`replacement = "S"` the code produces `"abScdS"`, replacing the second
occurrence as well (Python `str.replace` replaces all occurrences), not
`"abScd<NFe/>"`. -/
theorem C3_counterexample :
    fiscal_client.prepare_payload_placeholder "x\nyxy" "xy" "Z" = "xyZ"
    ∧ strContains "xyZ" "xy" = true
    ∧ fiscal_client.prepare_payload_placeholder "ab<NFe/>cd<NFe/>" "<NFe/>" "S" = "abScdS"
    ∧ "abScdS" ≠ "abScd<NFe/>" :=
  ⟨by decide, by decide, by decide, by decide⟩

/-- C3 amended: with a non-empty pattern and non-empty replacement, when the
pattern matches, the output is the rendered payload with **every** occurrence of
the matched substring replaced by the replacement and all `\n`/`\r` characters
then stripped; consequently the output contains no `\n` or `\r`, and — when the
replacement contains no newline characters — it contains the replacement
verbatim; before the newline stripping no occurrence of the matched substring
remains, provided the replacement cannot recreate the pattern (the no-overlap
side conditions below).  When the pattern does not match, the payload is
returned unchanged. -/
theorem C3_placeholder_substitution (data exp c : String)
    (hexp : exp ≠ "") (hc : c ≠ "")
    (hnl : ('\n' ∈ c.data → False) ∧ ('\r' ∈ c.data → False))
    (hmatch : strContains data exp = true)
    (ha : strContains c exp = false)
    (hb : ∀ k, k < c.data.length → isPrefixL (List.drop k c.data) exp.data = false)
    (hd1 : ∀ j, j < exp.data.length → 0 < j →
      isPrefixL (List.drop j exp.data) c.data = false)
    (hd2 : ∀ j, j < exp.data.length → 0 < j →
      isPrefixL c.data (List.drop j exp.data) = false) :
    fiscal_client.prepare_payload_placeholder data exp c =
      strReplaceAll (strReplaceAll (strReplaceAll data exp c) "\n" "") "\r" ""
    ∧ strContains (fiscal_client.prepare_payload_placeholder data exp c) c = true
    ∧ ('\n' ∈ (fiscal_client.prepare_payload_placeholder data exp c).data → False)
    ∧ ('\r' ∈ (fiscal_client.prepare_payload_placeholder data exp c).data → False)
    ∧ strContains (strReplaceAll data exp c) exp = false
    ∧ (∀ d2, strContains d2 exp = false →
        fiscal_client.prepare_payload_placeholder d2 exp c = d2) := by
  have heq : fiscal_client.prepare_payload_placeholder data exp c =
      strReplaceAll (strReplaceAll (strReplaceAll data exp c) "\n" "") "\r" "" := by
    rw [fiscal_client.prepare_payload_placeholder, if_pos ⟨hexp, hc⟩, if_pos hmatch]
  refine ⟨heq, ?_, ?_, ?_, ?_, ?_⟩
  · -- the replacement appears verbatim in the final output
    rw [heq, strip_cr, strip_lf]
    have h0 : strContains (strReplaceAll data exp c) c = true :=
      strReplaceAll_contains_repl hexp hmatch
    have h1 : containsL c.data
        ((strReplaceAll data exp c).data.filter (fun a => !(a == '\n'))) = true := by
      refine containsL_filter ?_ h0
      intro a hac
      have : ¬a = '\n' := fun hh => hnl.1 (hh ▸ hac)
      simpa using this
    have h2 : containsL c.data
        (((strReplaceAll data exp c).data.filter (fun a => !(a == '\n'))).filter
          (fun a => !(a == '\r'))) = true := by
      refine containsL_filter ?_ h1
      intro a hac
      have : ¬a = '\r' := fun hh => hnl.2 (hh ▸ hac)
      simpa using this
    simpa [strContains] using h2
  · -- no newline in the output
    rw [heq, strip_cr, strip_lf]
    intro hmem
    simp only [String.data] at hmem
    have := (List.mem_filter.mp ((List.mem_filter.mp hmem).1)).2
    simp at this
  · -- no carriage return in the output
    rw [heq, strip_cr, strip_lf]
    intro hmem
    simp only [String.data] at hmem
    have := (List.mem_filter.mp hmem).2
    simp at this
  · -- every occurrence of the matched substring is replaced
    exact strReplaceAll_not_contains hexp ha hb hd1 hd2
  · -- no match: payload unchanged
    intro d2 hnom
    rw [fiscal_client.prepare_payload_placeholder, if_pos ⟨hexp, hc⟩, if_neg (by simp [hnom])]

/-- Witness for C3 at a concrete signed-content substitution. -/
theorem C3_placeholder_substitution_witness :
    strContains "<env>\n<NFe/></env>" "<NFe/>" = true
    ∧ strContains "<Signed>ok</Signed>" "<NFe/>" = false
    ∧ fiscal_client.prepare_payload_placeholder "<env>\n<NFe/></env>" "<NFe/>"
        "<Signed>ok</Signed>" =
      strReplaceAll (strReplaceAll (strReplaceAll "<env>\n<NFe/></env>" "<NFe/>"
        "<Signed>ok</Signed>") "\n" "") "\r" ""
    ∧ strContains (fiscal_client.prepare_payload_placeholder "<env>\n<NFe/></env>"
        "<NFe/>" "<Signed>ok</Signed>") "<Signed>ok</Signed>" = true
    ∧ strContains (strReplaceAll "<env>\n<NFe/></env>" "<NFe/>" "<Signed>ok</Signed>")
        "<NFe/>" = false
    ∧ fiscal_client.prepare_payload_placeholder "<plain/>" "<NFe/>" "<Signed>ok</Signed>" =
      "<plain/>" := by
  have hth := C3_placeholder_substitution "<env>\n<NFe/></env>" "<NFe/>" "<Signed>ok</Signed>"
    (by decide) (by decide) (by decide) (by decide) (by decide) (by decide) (by decide)
    (by decide)
  exact ⟨by decide, by decide, hth.1, hth.2.1, hth.2.2.2.2.1,
    hth.2.2.2.2.2 "<plain/>" (by decide)⟩

/-- C4: when configured for SOAP 1.2 the prepared envelope is obtained by the
spec's pure string substitution of the SOAP 1.1 envelope namespace by the SOAP
1.2 one, so it contains `http://www.w3.org/2003/05/soap-envelope` and no longer
the SOAP 1.1 namespace; under the default configuration the rendered envelope is
sent unchanged, containing the SOAP 1.1 namespace and not the SOAP 1.2 one.
The hypotheses state the dialect of the rendered envelope (xsdata renders the
schema-bound envelope with the SOAP 1.1 binding). -/
theorem C4_soap12_request_dialect (data : String)
    (h11 : strContains data fiscal_client.SOAP11_ENV_NS = true)
    (h12 : strContains data fiscal_client.SOAP12_ENV_NS = false) :
    (strContains (fiscal_client.applySoap12 true data) fiscal_client.SOAP12_ENV_NS = true
      ∧ strContains (fiscal_client.applySoap12 true data) fiscal_client.SOAP11_ENV_NS = false)
    ∧ (strContains (fiscal_client.applySoap12 false data) fiscal_client.SOAP11_ENV_NS = true
      ∧ strContains (fiscal_client.applySoap12 false data) fiscal_client.SOAP12_ENV_NS
          = false) := by
  refine ⟨⟨?_, ?_⟩, ?_, ?_⟩
  · show strContains
        (strReplaceAll data fiscal_client.SOAP11_ENV_NS fiscal_client.SOAP12_ENV_NS)
        fiscal_client.SOAP12_ENV_NS = true
    exact strReplaceAll_contains_repl (by decide) h11
  · show strContains
        (strReplaceAll data fiscal_client.SOAP11_ENV_NS fiscal_client.SOAP12_ENV_NS)
        fiscal_client.SOAP11_ENV_NS = false
    exact strReplaceAll_not_contains (by decide) (by decide) (by decide) (by decide)
      (by decide)
  · simpa [fiscal_client.applySoap12] using h11
  · simpa [fiscal_client.applySoap12] using h12

/-- Witness for C4 at a concrete rendered SOAP 1.1 envelope. -/
theorem C4_soap12_request_dialect_witness :
    strContains
      "<soapenv:Envelope xmlns:soapenv=\"http://schemas.xmlsoap.org/soap/envelope/\"><soapenv:Body/></soapenv:Envelope>"
      fiscal_client.SOAP11_ENV_NS = true
    ∧ strContains
      "<soapenv:Envelope xmlns:soapenv=\"http://schemas.xmlsoap.org/soap/envelope/\"><soapenv:Body/></soapenv:Envelope>"
      fiscal_client.SOAP12_ENV_NS = false
    ∧ ((strContains (fiscal_client.applySoap12 true
        "<soapenv:Envelope xmlns:soapenv=\"http://schemas.xmlsoap.org/soap/envelope/\"><soapenv:Body/></soapenv:Envelope>")
        fiscal_client.SOAP12_ENV_NS = true
      ∧ strContains (fiscal_client.applySoap12 true
        "<soapenv:Envelope xmlns:soapenv=\"http://schemas.xmlsoap.org/soap/envelope/\"><soapenv:Body/></soapenv:Envelope>")
        fiscal_client.SOAP11_ENV_NS = false)
      ∧ (strContains (fiscal_client.applySoap12 false
        "<soapenv:Envelope xmlns:soapenv=\"http://schemas.xmlsoap.org/soap/envelope/\"><soapenv:Body/></soapenv:Envelope>")
        fiscal_client.SOAP11_ENV_NS = true
      ∧ strContains (fiscal_client.applySoap12 false
        "<soapenv:Envelope xmlns:soapenv=\"http://schemas.xmlsoap.org/soap/envelope/\"><soapenv:Body/></soapenv:Envelope>")
        fiscal_client.SOAP12_ENV_NS = false)) :=
  ⟨by decide, by decide,
    C4_soap12_request_dialect
      "<soapenv:Envelope xmlns:soapenv=\"http://schemas.xmlsoap.org/soap/envelope/\"><soapenv:Body/></soapenv:Envelope>"
      (by decide) (by decide)⟩

/-- C5: for a response in the SOAP 1.2 dialect after a SOAP 1.1 request, with
`raise_on_soap_mismatch = false` the resolver rewrites the SOAP 1.2 envelope
namespace to the SOAP 1.1 one before parsing, so the normalized response is in
the dialect the parser expects (it contains the SOAP 1.1 namespace and no SOAP
1.2 occurrence remains) and parsing proceeds; with
`raise_on_soap_mismatch = true` resolution fails, naming the unexpected SOAP 1.2
namespace, with no silent repair. -/
theorem C5_dialect_mismatch_handling (resp : String)
    (h12 : strContains resp fiscal_client.SOAP12_ENV_NS = true)
    (h11 : strContains resp fiscal_client.SOAP11_ENV_NS = false) :
    (∃ fixed, fiscal_client.reconcileSoapDialect false false resp = Except.ok fixed
      ∧ strContains fixed fiscal_client.SOAP11_ENV_NS = true
      ∧ strContains fixed fiscal_client.SOAP12_ENV_NS = false)
    ∧ fiscal_client.reconcileSoapDialect false true resp =
        Except.error fiscal_client.SOAP12_ENV_NS := by
  constructor
  · refine ⟨strReplaceAll resp fiscal_client.SOAP12_ENV_NS fiscal_client.SOAP11_ENV_NS,
      ?_, ?_, ?_⟩
    · simp [fiscal_client.reconcileSoapDialect, h12, h11]
    · exact strReplaceAll_contains_repl (by decide) h12
    · exact strReplaceAll_not_contains (by decide) (by decide) (by decide) (by decide)
        (by decide)
  · simp [fiscal_client.reconcileSoapDialect, h12, h11]

/-- Witness for C5 at a concrete SOAP 1.2 response envelope. -/
theorem C5_dialect_mismatch_handling_witness :
    strContains
      "<soap:Envelope xmlns:soap=\"http://www.w3.org/2003/05/soap-envelope\"><soap:Body/></soap:Envelope>"
      fiscal_client.SOAP12_ENV_NS = true
    ∧ strContains
      "<soap:Envelope xmlns:soap=\"http://www.w3.org/2003/05/soap-envelope\"><soap:Body/></soap:Envelope>"
      fiscal_client.SOAP11_ENV_NS = false
    ∧ ((∃ fixed, fiscal_client.reconcileSoapDialect false false
        "<soap:Envelope xmlns:soap=\"http://www.w3.org/2003/05/soap-envelope\"><soap:Body/></soap:Envelope>"
          = Except.ok fixed
        ∧ strContains fixed fiscal_client.SOAP11_ENV_NS = true
        ∧ strContains fixed fiscal_client.SOAP12_ENV_NS = false)
      ∧ fiscal_client.reconcileSoapDialect false true
        "<soap:Envelope xmlns:soap=\"http://www.w3.org/2003/05/soap-envelope\"><soap:Body/></soap:Envelope>"
          = Except.error fiscal_client.SOAP12_ENV_NS) :=
  ⟨by decide, by decide,
    C5_dialect_mismatch_handling
      "<soap:Envelope xmlns:soap=\"http://www.w3.org/2003/05/soap-envelope\"><soap:Body/></soap:Envelope>"
      (by decide) (by decide)⟩
